import Mathlib

/-!
# Verification of the `nocap` model registry core

A shallow embedding of the `no_captcha` crate (`src/lib.rs`, `src/errors.rs`)
and of the `api_server` façade (`api_server/src/main.rs`, `api_server/src/errors.rs`),
together with theorems settling the specification's claims.

Conventions of the embedding:
* `OsString` values (directory entry names) are modelled as `Option String`:
  `some s` is a name that converts to UTF-8 text `s`, `none` a name that does not.
* Fallible Rust `Result` values become `Except`; code paths that can `panic!`
  (`expect`, `unwrap`, `unimplemented!`) return a `PanicResult` with an explicit
  `panicked` constructor carrying the panic message.
* The TensorFlow `Session`/`Graph` pair is an external FFI resource; it is
  modelled by which named operations its graph exposes and by the numeric
  output of running the session on one textual input (confidences as `ℚ`,
  standing for the runtime's `f32` outputs).
* The rayon `filter / try_fold / try_reduce` pipeline of
  `load_from_models_dir` is embedded as filtering followed by a sequential
  short-circuiting fold (one worker schedule); the `try_reduce` combine
  closure is embedded separately (`combine_model_maps`) and its
  schedule-independence is what claim C6 is about.
-/

namespace Nocap

/-- `CaptchaChallenge` from `src/lib.rs`: the closed catalog of the 16 accepted
reCaptcha challenge types.  `strum(serialize_all = "snake_case")` fixes the
canonical string names. -/
inductive CaptchaChallenge where
  | AFireHydrant
  | Bridges
  | Cars
  | Motorcycles
  | PalmTrees
  | Stairs
  | StoreFront
  | Tractors
  | Bicycles
  | Bus
  | Crosswalks
  | MountainsOrHills
  | ParkingMeters
  | Statues
  | Taxis
  | TrafficLights
  deriving DecidableEq, Repr

/-- The snake_case display form that strum's `Display`/`IntoStaticStr` derive
produces for each variant (`serialize_all = "snake_case"`). -/
def CaptchaChallenge.toName : CaptchaChallenge → String
  | .AFireHydrant => "a_fire_hydrant"
  | .Bridges => "bridges"
  | .Cars => "cars"
  | .Motorcycles => "motorcycles"
  | .PalmTrees => "palm_trees"
  | .Stairs => "stairs"
  | .StoreFront => "store_front"
  | .Tractors => "tractors"
  | .Bicycles => "bicycles"
  | .Bus => "bus"
  | .Crosswalks => "crosswalks"
  | .MountainsOrHills => "mountains_or_hills"
  | .ParkingMeters => "parking_meters"
  | .Statues => "statues"
  | .Taxis => "taxis"
  | .TrafficLights => "traffic_lights"

/-- `CaptchaChallenge::VARIANTS` generated by the `EnumVariantNames` derive:
the snake_case names in declaration order. -/
def CaptchaChallenge.VARIANTS : List String :=
  ["a_fire_hydrant", "bridges", "cars", "motorcycles", "palm_trees", "stairs",
   "store_front", "tractors", "bicycles", "bus", "crosswalks",
   "mountains_or_hills", "parking_meters", "statues", "taxis",
   "traffic_lights"]

/-- `CaptchaChallenge::from_str` generated by the `EnumString` derive:
exact, case-sensitive match of the snake_case name; `none` models
`Err(strum::ParseError::VariantNotFound)`. -/
def CaptchaChallenge.fromStr (s : String) : Option CaptchaChallenge :=
  if s = "a_fire_hydrant" then some .AFireHydrant
  else if s = "bridges" then some .Bridges
  else if s = "cars" then some .Cars
  else if s = "motorcycles" then some .Motorcycles
  else if s = "palm_trees" then some .PalmTrees
  else if s = "stairs" then some .Stairs
  else if s = "store_front" then some .StoreFront
  else if s = "tractors" then some .Tractors
  else if s = "bicycles" then some .Bicycles
  else if s = "bus" then some .Bus
  else if s = "crosswalks" then some .Crosswalks
  else if s = "mountains_or_hills" then some .MountainsOrHills
  else if s = "parking_meters" then some .ParkingMeters
  else if s = "statues" then some .Statues
  else if s = "taxis" then some .Taxis
  else if s = "traffic_lights" then some .TrafficLights
  else none

/-- `CaptchaChallenge::is_valid_challenge` (`src/lib.rs:92-102`): linear scan
of `VARIANTS` for an exact string match. -/
def CaptchaChallenge.is_valid_challenge (name : String) : Bool :=
  CaptchaChallenge.VARIANTS.any (fun var => name = var)

/-- `CaptchaChallenge::is_valid_challenge_os_str` (`src/lib.rs:81-89`):
if the `OsStr` converts to UTF-8 (`some s`), defer to `is_valid_challenge`;
otherwise return `false`. -/
def CaptchaChallenge.is_valid_challenge_os_str (name : Option String) : Bool :=
  match name with
  | some s => CaptchaChallenge.is_valid_challenge s
  | none => false

/-- `tensorflow::Code` carried by `Error::TensorflowError`
(`src/errors.rs:7,31-35`): an opaque status code of the external runtime,
modelled by its numeric value. -/
abbrev TFCode := Nat

/-- `Error` from `src/errors.rs`.  `IOError` keeps only an abstract code for
the wrapped `std::io::Error`. -/
inductive Error where
  | IOError (code : Nat)
  | TensorflowError (code : TFCode)
  | ModelLoad (challenge : CaptchaChallenge)
  | StrumParseError
  | MutexError

/-- Outcome of a Rust computation that may return `Ok`, return `Err`, or
`panic!` (via `expect`, `unwrap` or `unimplemented!`). -/
inductive PanicResult (α : Type) where
  | panicked (msg : String)
  | failed (e : Error)
  | ok (a : α)

/-- `CaptchaModel` (`src/lib.rs:110-113`): a loaded TensorFlow `Session` plus
`Graph`.  Both are external runtime handles; the embedding records which named
operations the graph exposes (`predict` requires `"Placeholder"` and
`"scores"`) and the two `f32` scores (as `ℚ`) that running the session on one
textual input produces, or the runtime status code if execution fails. -/
structure CaptchaModel where
  hasPlaceholderOp : Bool
  hasScoresOp : Bool
  runScores : String → Except TFCode (ℚ × ℚ)

/-- One entry of `SavedModelMap`: `Mutex<CaptchaModel>` — the model together
with the poisoned-or-not state of its mutex (`lock()` fails with
`PoisonError`, converted to `Error::MutexError`, when poisoned). -/
structure MutexModel where
  poisoned : Bool
  model : CaptchaModel

/-- `SavedModelMap = HashMap<CaptchaChallenge, Mutex<CaptchaModel>>`
(`src/lib.rs:107`), modelled extensionally as a finite-domain function. -/
abbrev SavedModelMap := CaptchaChallenge → Option MutexModel

/-- `SavedModelMap::new()` / `with_capacity(_)`: the empty map. -/
def SavedModelMap.empty : SavedModelMap := fun _ => none

/-- `HashMap::insert` on a `SavedModelMap`: bind `c`, overwriting any previous
binding, leaving the rest unchanged. -/
def SavedModelMap.insert (m : SavedModelMap) (c : CaptchaChallenge)
    (v : MutexModel) : SavedModelMap :=
  fun k => if k = c then some v else m k

/-- `CaptchaRegistry` (`src/lib.rs:116-118`). -/
structure CaptchaRegistry where
  items : SavedModelMap

/-- One directory entry (`fs::DirEntry`) under the models root:
its file name (an `OsString`, `none` when not valid UTF-8), whether
`<entry>/saved_model.pb` exists, and the outcome that
`Session::from_saved_model` would produce on `<entry>` (an external runtime
call: `ok` the loaded model, `error` a status code). -/
structure DirEntry where
  file_name : Option String
  saved_model_pb_exists : Bool
  session_from_saved_model : Except TFCode CaptchaModel

/-- Body of the `try_fold` closure in `load_from_models_dir`
(`src/lib.rs:141-165`): recover the entry's name (`expect` panics for
non-UTF-8), parse it (`unwrap` panics on failure), fail the load with
`Error::ModelLoad(challenge)` if `saved_model.pb` is absent, otherwise load
the model and insert it (wrapped in a fresh, unpoisoned mutex). -/
def loadStep (acc : SavedModelMap) (dir : DirEntry) :
    PanicResult SavedModelMap :=
  match dir.file_name with
  | none => .panicked "Could not retrieve Model's name"
  | some name =>
    match CaptchaChallenge.fromStr name with
    | none => .panicked "called `Result::unwrap()` on an `Err` value"
    | some challenge =>
      if !dir.saved_model_pb_exists then
        .failed (.ModelLoad challenge)
      else
        match dir.session_from_saved_model with
        | .error status => .failed (.TensorflowError status)
        | .ok model =>
          .ok (acc.insert challenge ⟨false, model⟩)

/-- The short-circuiting fold of filtered entries: the sequential (one-worker)
schedule of rayon's `try_fold`/`try_reduce` pipeline. -/
def loadFold : List DirEntry → SavedModelMap → PanicResult SavedModelMap
  | [], acc => .ok acc
  | d :: rest, acc =>
    match loadStep acc d with
    | .panicked msg => .panicked msg
    | .failed e => .failed e
    | .ok acc2 => loadFold rest acc2

/-- `CaptchaRegistry::load_from_models_dir` (`src/lib.rs:121-176`), given the
successfully enumerated entries of the root directory: keep the entries whose
file name is a valid challenge name, fold the loader over them, and wrap the
resulting map in a `CaptchaRegistry`. -/
def CaptchaRegistry.load_from_models_dir (entries : List DirEntry) :
    PanicResult CaptchaRegistry :=
  match loadFold
      (entries.filter
        (fun dir => CaptchaChallenge.is_valid_challenge_os_str dir.file_name))
      SavedModelMap.empty with
  | .panicked msg => .panicked msg
  | .failed e => .failed e
  | .ok m => .ok ⟨m⟩

/-- The `try_reduce` combine closure (`src/lib.rs:166-174`): iterate the
second partial map's pairs and `insert` each into the first, so the second
map's bindings win on any common key. -/
def combine_model_maps (m t : SavedModelMap) : SavedModelMap :=
  fun k =>
    match t k with
    | some v => some v
    | none => m k

/-- `Prediction` (`src/lib.rs:209-213`); the `f32` confidences are modelled
as `ℚ`. -/
structure Prediction where
  affirmative_confidence : ℚ
  negative_confidence : ℚ

/-- `Prediction::is_mainly_affirmative` (`src/lib.rs:217-219`). -/
def Prediction.is_mainly_affirmative (p : Prediction) : Bool :=
  decide (0.50 ≤ p.affirmative_confidence) &&
    decide (p.negative_confidence < 0.50)

/-- `CaptchaRegistry::predict` (`src/lib.rs:178-206`): look the challenge up
(`expect("This should not happen")` panics when absent), lock the mutex
(`MutexError` when poisoned), require the `"Placeholder"` and `"scores"`
operations of the graph, run the session and read the two scores. -/
def CaptchaRegistry.predict (r : CaptchaRegistry)
    (challenge : CaptchaChallenge) (image : String) :
    PanicResult Prediction :=
  match r.items challenge with
  | none => .panicked "This should not happen"
  | some entry =>
    if entry.poisoned then .failed .MutexError
    else if !entry.model.hasPlaceholderOp then
      .failed (.TensorflowError 3)
    else if !entry.model.hasScoresOp then
      .failed (.TensorflowError 3)
    else
      match entry.model.runScores image with
      | .error status => .failed (.TensorflowError status)
      | .ok scores =>
        .ok ⟨scores.1, scores.2⟩

/-- `Image` from `api_server/src/main.rs:19-25`: the two wire encodings of the
payload; `Bytes` carries `Vec<u8>` as a list of byte values. -/
inductive Image where
  | Base64 (data : String)
  | Bytes (data : List Nat)

/-- `RecognitionRequest` from `api_server/src/main.rs:11-17`. -/
structure RecognitionRequest where
  challenge : CaptchaChallenge
  image : Image

/-- The serializable part of `api_server`'s `Error`
(`api_server/src/errors.rs:9-17`) that `handle_raw_image_upload` can emit. -/
inductive ApiError where
  | InvalidRecognitionRequest
  | Generic (msg : String)

/-- `handle_raw_image_upload` (`api_server/src/main.rs:27-47`).  The parsed
request body is `none` when `body_json` failed; `base64_decode` and
`from_utf8_unchecked` are the external `base64::decode` and
`String::from_utf8_unchecked` helpers.  The `Ok(Image::Base64 ...)` arm
decodes and dispatches to `predict`; the `Err` arm reports
`InvalidRecognitionRequest`; every other case — i.e. a parsed body whose
image is `Image::Bytes` — falls to the wildcard arm `unimplemented!()`,
which panics with message "not implemented". -/
def handle_raw_image_upload (registry : CaptchaRegistry)
    (body_json : Option RecognitionRequest)
    (base64_decode : String → Option (List Nat))
    (from_utf8_unchecked : List Nat → String) :
    PanicResult (Except ApiError Prediction) :=
  match body_json with
  | some ⟨challenge, .Base64 data⟩ =>
    match base64_decode data with
    | some decoded_base64 =>
      match registry.predict challenge (from_utf8_unchecked decoded_base64) with
      | .ok prediction => .ok (.ok prediction)
      | .failed _ => .ok (.error (.Generic "Prediction failed"))
      | .panicked msg => .panicked msg
    | none => .ok (.error (.Generic "Invalid image Base64"))
  | none => .ok (.error .InvalidRecognitionRequest)
  | some ⟨_, .Bytes _⟩ => .panicked "not implemented"

/-! ## Concrete fixtures used by witnesses and counterexamples -/

/-- A stub loaded model: both required graph operations present, every run
returning the confidence pair `(9/10, 1/10)`. -/
def busModel : CaptchaModel :=
  ⟨true, true, fun _ => .ok (9/10, 1/10)⟩

/-- A well-formed `bus/` artifact directory entry. -/
def busEntry : DirEntry := ⟨some "bus", true, .ok busModel⟩

/-- A well-formed `taxis/` artifact directory entry. -/
def taxisEntry : DirEntry := ⟨some "taxis", true, .ok busModel⟩

/-- A `taxis/` directory entry that lacks its `saved_model.pb` artifact. -/
def missingTaxisEntry : DirEntry := ⟨some "taxis", false, .ok busModel⟩

/-- A stray directory entry whose name is no catalog member. -/
def junkEntry : DirEntry := ⟨some "junk", true, .ok busModel⟩

/-- A registry that never loaded any category. -/
def emptyRegistry : CaptchaRegistry := ⟨SavedModelMap.empty⟩

/-- A one-binding partial map for the `bus` category. -/
def busOnlyMap : SavedModelMap :=
  SavedModelMap.empty.insert CaptchaChallenge.Bus ⟨false, busModel⟩

/-- A one-binding partial map for the `taxis` category. -/
def taxisOnlyMap : SavedModelMap :=
  SavedModelMap.empty.insert CaptchaChallenge.Taxis ⟨false, busModel⟩

/-! ## Helper lemmas -/

lemma CaptchaChallenge.fromStr_toName (c : CaptchaChallenge) :
    CaptchaChallenge.fromStr (CaptchaChallenge.toName c) = some c := by
  cases c <;> rfl

lemma CaptchaChallenge.toName_injective {a b : CaptchaChallenge}
    (h : CaptchaChallenge.toName a = CaptchaChallenge.toName b) : a = b := by
  have ha := CaptchaChallenge.fromStr_toName a
  rw [h, CaptchaChallenge.fromStr_toName b] at ha
  injection ha with h2
  exact h2.symm

lemma CaptchaChallenge.is_valid_challenge_iff (s : String) :
    CaptchaChallenge.is_valid_challenge s = true ↔
      ∃ c : CaptchaChallenge, s = CaptchaChallenge.toName c := by
  constructor
  · intro h
    simp [CaptchaChallenge.is_valid_challenge, CaptchaChallenge.VARIANTS,
      List.any_eq_true] at h
    rcases h with h | h | h | h | h | h | h | h | h | h | h | h | h | h | h | h
    · exact ⟨.AFireHydrant, h⟩
    · exact ⟨.Bridges, h⟩
    · exact ⟨.Cars, h⟩
    · exact ⟨.Motorcycles, h⟩
    · exact ⟨.PalmTrees, h⟩
    · exact ⟨.Stairs, h⟩
    · exact ⟨.StoreFront, h⟩
    · exact ⟨.Tractors, h⟩
    · exact ⟨.Bicycles, h⟩
    · exact ⟨.Bus, h⟩
    · exact ⟨.Crosswalks, h⟩
    · exact ⟨.MountainsOrHills, h⟩
    · exact ⟨.ParkingMeters, h⟩
    · exact ⟨.Statues, h⟩
    · exact ⟨.Taxis, h⟩
    · exact ⟨.TrafficLights, h⟩
  · rintro ⟨c, rfl⟩
    cases c <;> rfl

lemma CaptchaChallenge.is_valid_challenge_os_str_iff (name : Option String) :
    CaptchaChallenge.is_valid_challenge_os_str name = true ↔
      ∃ c : CaptchaChallenge, name = some (CaptchaChallenge.toName c) := by
  cases name with
  | none => simp [CaptchaChallenge.is_valid_challenge_os_str]
  | some s =>
    simp only [CaptchaChallenge.is_valid_challenge_os_str, Option.some.injEq]
    exact (CaptchaChallenge.is_valid_challenge_iff s).trans (by simp)

lemma loadStep_ok_pb_exists {acc acc2 : SavedModelMap} {d : DirEntry}
    (h : loadStep acc d = .ok acc2) : d.saved_model_pb_exists = true := by
  cases hpb : d.saved_model_pb_exists with
  | true => rfl
  | false =>
    cases hn : d.file_name with
    | none => simp [loadStep, hn] at h
    | some name =>
      cases hf : CaptchaChallenge.fromStr name with
      | none => simp [loadStep, hn, hf] at h
      | some c => simp [loadStep, hn, hf, hpb] at h

lemma loadFold_not_ok_of_missing (l : List DirEntry)
    (h : ∃ d ∈ l, d.saved_model_pb_exists = false) :
    ∀ (acc : SavedModelMap) (mp : SavedModelMap), loadFold l acc ≠ .ok mp := by
  induction l with
  | nil =>
    rcases h with ⟨d, hd, _⟩
    exact absurd hd (by simp)
  | cons d rest ih =>
    intro acc mp hmp
    unfold loadFold at hmp
    cases hs : loadStep acc d with
    | panicked msg => rw [hs] at hmp; exact absurd hmp (by simp)
    | failed e => rw [hs] at hmp; exact absurd hmp (by simp)
    | ok acc2 =>
      rw [hs] at hmp
      rcases h with ⟨d', hd', hpb⟩
      rcases List.mem_cons.mp hd' with rfl | hmem
      · rw [loadStep_ok_pb_exists hs] at hpb
        exact absurd hpb (by simp)
      · exact ih ⟨d', hmem, hpb⟩ acc2 mp hmp

lemma loadFold_modelLoad (l : List DirEntry)
    (hvalid : ∀ d ∈ l,
      CaptchaChallenge.is_valid_challenge_os_str d.file_name = true)
    (hengine : ∀ d ∈ l, d.saved_model_pb_exists = true →
      ∃ m, d.session_from_saved_model = .ok m)
    (hmiss : ∃ d ∈ l, d.saved_model_pb_exists = false) :
    ∀ acc : SavedModelMap, ∃ c d, loadFold l acc = .failed (.ModelLoad c) ∧
      d ∈ l ∧ d.file_name = some (CaptchaChallenge.toName c) ∧
      d.saved_model_pb_exists = false := by
  induction l with
  | nil =>
    rcases hmiss with ⟨d, hd, _⟩
    exact absurd hd (by simp)
  | cons d rest ih =>
    intro acc
    obtain ⟨c, hname⟩ := (CaptchaChallenge.is_valid_challenge_os_str_iff
      d.file_name).mp (hvalid d (by simp))
    cases hpb : d.saved_model_pb_exists with
    | false =>
      refine ⟨c, d, ?_, by simp, hname, hpb⟩
      simp [loadFold, loadStep, hname, CaptchaChallenge.fromStr_toName, hpb]
    | true =>
      obtain ⟨m, hm⟩ := hengine d (by simp) hpb
      have hstep : loadStep acc d = .ok (acc.insert c ⟨false, m⟩) := by
        simp [loadStep, hname, CaptchaChallenge.fromStr_toName, hpb, hm]
      have hmiss2 : ∃ d2 ∈ rest, d2.saved_model_pb_exists = false := by
        rcases hmiss with ⟨d2, hd2, hpb2⟩
        rcases List.mem_cons.mp hd2 with rfl | hmem
        · rw [hpb] at hpb2; exact absurd hpb2 (by simp)
        · exact ⟨d2, hmem, hpb2⟩
      obtain ⟨c2, d2, hfold, hmem2, hname2, hpb2⟩ :=
        ih (fun x hx => hvalid x (by simp [hx]))
          (fun x hx => hengine x (by simp [hx])) hmiss2
          (acc.insert c ⟨false, m⟩)
      refine ⟨c2, d2, ?_, by simp [hmem2], hname2, hpb2⟩
      simp only [loadFold]
      rw [hstep]
      exact hfold

lemma loadFold_ok_of_valid (l : List DirEntry)
    (h : ∀ d ∈ l, ∃ c m,
      d.file_name = some (CaptchaChallenge.toName c) ∧
      d.saved_model_pb_exists = true ∧
      d.session_from_saved_model = .ok m) :
    ∀ acc : SavedModelMap, ∃ mp, loadFold l acc = .ok mp ∧
      ∀ c, (mp c).isSome = true ↔
        ((acc c).isSome = true ∨
          ∃ d ∈ l, d.file_name = some (CaptchaChallenge.toName c)) := by
  induction l with
  | nil =>
    intro acc
    exact ⟨acc, rfl, by simp⟩
  | cons d rest ih =>
    intro acc
    obtain ⟨c, m, hname, hpb, hm⟩ := h d (by simp)
    have hstep : loadStep acc d = .ok (acc.insert c ⟨false, m⟩) := by
      simp [loadStep, hname, CaptchaChallenge.fromStr_toName, hpb, hm]
    obtain ⟨mp, hfold, hchar⟩ :=
      ih (fun x hx => h x (by simp [hx])) (acc.insert c ⟨false, m⟩)
    refine ⟨mp, ?_, ?_⟩
    · simp only [loadFold]
      rw [hstep]
      exact hfold
    · intro k
      rw [hchar k]
      constructor
      · rintro (hins | ⟨d2, hd2, hname2⟩)
        · by_cases hkc : k = c
          · exact Or.inr ⟨d, by simp, hkc ▸ hname⟩
          · left
            simpa [SavedModelMap.insert, hkc] using hins
        · exact Or.inr ⟨d2, by simp [hd2], hname2⟩
      · rintro (hacc | ⟨d2, hd2, hname2⟩)
        · left
          by_cases hkc : k = c <;> simp [SavedModelMap.insert, hkc, hacc]
        · rcases List.mem_cons.mp hd2 with rfl | hmem
          · rw [hname] at hname2
            injection hname2 with hname3
            have hkc : c = k := CaptchaChallenge.toName_injective hname3
            left
            simp [SavedModelMap.insert, hkc]
          · exact Or.inr ⟨d2, hmem, hname2⟩

/-! ## Claim theorems -/

/-- C5: for every one of the 16 catalog members `c`, parsing the canonical
snake_case display form of `c` succeeds and yields `c` back:
`from_str(to_name(c)) == Ok(c)`. -/
theorem C5_catalog_round_trip (c : CaptchaChallenge) :
    CaptchaChallenge.fromStr (CaptchaChallenge.toName c) = some c :=
  CaptchaChallenge.fromStr_toName c

/-- C8: the validity probe `is_valid_challenge_os_str` is total (returning
`false`, never an error, on non-UTF-8 names and on text that is no catalog
member) and returns `true` exactly on the canonical member names. -/
theorem C8_validity_probe (name : Option String) :
    CaptchaChallenge.is_valid_challenge_os_str name = true ↔
      ∃ c : CaptchaChallenge, name = some (CaptchaChallenge.toName c) :=
  CaptchaChallenge.is_valid_challenge_os_str_iff name

/-- C7: every directory entry name accepted by the filter converts to a UTF-8
string on which `CaptchaChallenge::from_str` succeeds, so the
`expect`/`unwrap` on that path in `load_from_models_dir` is unreachable for
filtered entries. -/
theorem C7_filtered_names_parse (name : Option String)
    (h : CaptchaChallenge.is_valid_challenge_os_str name = true) :
    ∃ s c, name = some s ∧ CaptchaChallenge.fromStr s = some c := by
  obtain ⟨c, rfl⟩ := (CaptchaChallenge.is_valid_challenge_os_str_iff name).mp h
  exact ⟨CaptchaChallenge.toName c, c, rfl, CaptchaChallenge.fromStr_toName c⟩

/-- C7 witness: the filter accepts the name `bus`, and parsing it succeeds. -/
theorem C7_filtered_names_parse_witness :
    CaptchaChallenge.is_valid_challenge_os_str (some "bus") = true ∧
      ∃ s c, (some "bus" : Option String) = some s ∧
        CaptchaChallenge.fromStr s = some c :=
  ⟨by decide, C7_filtered_names_parse (some "bus") (by decide)⟩

/-- C10: `is_mainly_affirmative` returns `true` iff the affirmative
confidence is at least 0.50 and the negative confidence is below 0.50 (so it
is `false` when both are at least 0.50, and `false` whenever the affirmative
confidence is below 0.50). -/
theorem C10_is_mainly_affirmative (p : Prediction) :
    p.is_mainly_affirmative = true ↔
      (0.50 ≤ p.affirmative_confidence ∧ p.negative_confidence < 0.50) := by
  simp [Prediction.is_mainly_affirmative]

/-- C2 counterexample: against a registry that never loaded the requested
category, `predict` does not return a "category not loaded" error — it
panics (the code calls `.expect("This should not happen")` on the map
lookup, and the error enum has no such variant at all). -/
theorem C2_counterexample :
    emptyRegistry.predict CaptchaChallenge.Bus "x" =
      .panicked "This should not happen" := rfl

/-- C2 amended: for every registry and every category absent from its map,
`predict` with that category and any input panics with the message
`This should not happen` instead of returning a `CategoryNotLoaded` error. -/
theorem C2_amended_predict_panics (r : CaptchaRegistry)
    (challenge : CaptchaChallenge) (image : String)
    (h : r.items challenge = none) :
    r.predict challenge image = .panicked "This should not happen" := by
  simp [CaptchaRegistry.predict, h]

/-- C2 amended witness: the empty registry never loaded `taxis`, and
`predict` on it panics. -/
theorem C2_amended_predict_panics_witness :
    emptyRegistry.items CaptchaChallenge.Taxis = none ∧
      emptyRegistry.predict CaptchaChallenge.Taxis "img" =
        .panicked "This should not happen" :=
  ⟨rfl, C2_amended_predict_panics emptyRegistry CaptchaChallenge.Taxis "img" rfl⟩

/-- C9 counterexample: a well-formed request body with a valid challenge and
`image_type: "bytes"` is not answered — the handler's wildcard match arm
panics via `unimplemented!()`. -/
theorem C9_counterexample :
    handle_raw_image_upload emptyRegistry
        (some ⟨CaptchaChallenge.Bus, Image.Bytes [0, 1, 2]⟩)
        (fun _ => none) (fun _ => "") =
      .panicked "not implemented" := rfl

/-- C9 amended: for every registry and every parsed request body carrying
`Image::Bytes`, `handle_raw_image_upload` panics with `not implemented`
(only the `Image::Base64` form is dispatched to `predict`). -/
theorem C9_amended_bytes_panics (registry : CaptchaRegistry)
    (challenge : CaptchaChallenge) (bytes : List Nat)
    (base64_decode : String → Option (List Nat))
    (from_utf8_unchecked : List Nat → String) :
    handle_raw_image_upload registry (some ⟨challenge, Image.Bytes bytes⟩)
        base64_decode from_utf8_unchecked =
      .panicked "not implemented" := rfl

/-- C4: an entry whose file name is not a valid catalog name (including
non-UTF-8 names) is skipped by `load_from_models_dir`: removing it from the
enumerated entries changes nothing, so it can neither fail the load nor
contribute to the registry map, whatever its contents. -/
theorem C4_directory_filtering (l1 l2 : List DirEntry) (e : DirEntry)
    (h : CaptchaChallenge.is_valid_challenge_os_str e.file_name = false) :
    CaptchaRegistry.load_from_models_dir (l1 ++ e :: l2) =
      CaptchaRegistry.load_from_models_dir (l1 ++ l2) := by
  simp [CaptchaRegistry.load_from_models_dir, List.filter_append,
    List.filter_cons, h]

/-- C4 witness: a stray `junk/` entry between two loads changes nothing. -/
theorem C4_directory_filtering_witness :
    CaptchaChallenge.is_valid_challenge_os_str junkEntry.file_name = false ∧
      CaptchaRegistry.load_from_models_dir ([busEntry] ++ junkEntry :: [taxisEntry]) =
        CaptchaRegistry.load_from_models_dir ([busEntry] ++ [taxisEntry]) :=
  ⟨by decide, C4_directory_filtering [busEntry] [taxisEntry] junkEntry (by decide)⟩

/-- C6: the `try_reduce` combine closure is plain (right-biased) map union;
it is associative on all maps, and on maps with pairwise disjoint key sets —
the only partial maps a load can produce, since directory entry names are
distinct — it is also commutative, so partial worker results may be merged
in any order or grouping. -/
theorem C6_combine_union_assoc_comm :
    (∀ a b c : SavedModelMap,
        combine_model_maps (combine_model_maps a b) c =
          combine_model_maps a (combine_model_maps b c)) ∧
    (∀ a b : SavedModelMap, (∀ k, a k = none ∨ b k = none) →
        combine_model_maps a b = combine_model_maps b a) := by
  constructor
  · intro a b c
    funext k
    simp only [combine_model_maps]
    cases c k <;> cases b k <;> rfl
  · intro a b hdisj
    funext k
    rcases hdisj k with ha | hb
    · simp only [combine_model_maps, ha]
      cases b k <;> rfl
    · simp only [combine_model_maps, hb]
      cases a k <;> rfl

/-- C6 witness: two disjoint one-category partial maps merge the same way in
either order. -/
theorem C6_combine_union_assoc_comm_witness :
    (∀ k, busOnlyMap k = none ∨ taxisOnlyMap k = none) ∧
      combine_model_maps busOnlyMap taxisOnlyMap =
        combine_model_maps taxisOnlyMap busOnlyMap := by
  have hdisj : ∀ k, busOnlyMap k = none ∨ taxisOnlyMap k = none := by
    intro k
    cases k <;>
      simp [busOnlyMap, taxisOnlyMap, SavedModelMap.insert, SavedModelMap.empty]
  exact ⟨hdisj, C6_combine_union_assoc_comm.2 busOnlyMap taxisOnlyMap hdisj⟩

/-- C1: if some enumerated entry has a valid catalog name but lacks its
`saved_model.pb`, then `load_from_models_dir` never returns a registry (not
even a partially populated one); and provided no other entry fails for an
unrelated engine reason, the load fails precisely with
`Error::ModelLoad` carrying the category of an artifact-less entry. -/
theorem C1_load_atomicity (entries : List DirEntry)
    (hmiss : ∃ d ∈ entries,
      CaptchaChallenge.is_valid_challenge_os_str d.file_name = true ∧
      d.saved_model_pb_exists = false) :
    (∀ r, CaptchaRegistry.load_from_models_dir entries ≠ .ok r) ∧
    ((∀ d ∈ entries,
        CaptchaChallenge.is_valid_challenge_os_str d.file_name = true →
        d.saved_model_pb_exists = true →
        ∃ m, d.session_from_saved_model = .ok m) →
      ∃ c d, CaptchaRegistry.load_from_models_dir entries =
          .failed (.ModelLoad c) ∧ d ∈ entries ∧
          d.file_name = some (CaptchaChallenge.toName c) ∧
          d.saved_model_pb_exists = false) := by
  have hmiss2 : ∃ d ∈ entries.filter
      (fun dir => CaptchaChallenge.is_valid_challenge_os_str dir.file_name),
      d.saved_model_pb_exists = false := by
    rcases hmiss with ⟨d, hd, hv, hpb⟩
    exact ⟨d, List.mem_filter.mpr ⟨hd, hv⟩, hpb⟩
  constructor
  · intro r hr
    unfold CaptchaRegistry.load_from_models_dir at hr
    cases hf : loadFold
        (entries.filter
          (fun dir => CaptchaChallenge.is_valid_challenge_os_str dir.file_name))
        SavedModelMap.empty with
    | panicked msg => rw [hf] at hr; exact absurd hr (by simp)
    | failed e => rw [hf] at hr; exact absurd hr (by simp)
    | ok mp => exact loadFold_not_ok_of_missing _ hmiss2 _ mp hf
  · intro hengine
    obtain ⟨c, d, hfold, hmem, hname, hpb⟩ :=
      loadFold_modelLoad
        (entries.filter
          (fun dir => CaptchaChallenge.is_valid_challenge_os_str dir.file_name))
        (fun x hx => (List.mem_filter.mp hx).2)
        (fun x hx => hengine x (List.mem_filter.mp hx).1
          (List.mem_filter.mp hx).2)
        hmiss2 SavedModelMap.empty
    refine ⟨c, d, ?_, (List.mem_filter.mp hmem).1, hname, hpb⟩
    unfold CaptchaRegistry.load_from_models_dir
    rw [hfold]

/-- C1 witness: a root with a healthy `bus/` artifact and a `taxis/`
directory missing `saved_model.pb` yields no registry and fails with
`ModelLoad(Taxis)`-shaped error. -/
theorem C1_load_atomicity_witness :
    (∃ d ∈ [busEntry, missingTaxisEntry],
      CaptchaChallenge.is_valid_challenge_os_str d.file_name = true ∧
      d.saved_model_pb_exists = false) ∧
    (∀ r, CaptchaRegistry.load_from_models_dir [busEntry, missingTaxisEntry] ≠
      .ok r) ∧
    (∃ c d, CaptchaRegistry.load_from_models_dir [busEntry, missingTaxisEntry] =
        .failed (.ModelLoad c) ∧ d ∈ [busEntry, missingTaxisEntry] ∧
        d.file_name = some (CaptchaChallenge.toName c) ∧
        d.saved_model_pb_exists = false) := by
  have hmiss : ∃ d ∈ [busEntry, missingTaxisEntry],
      CaptchaChallenge.is_valid_challenge_os_str d.file_name = true ∧
      d.saved_model_pb_exists = false :=
    ⟨missingTaxisEntry, by simp, by decide, rfl⟩
  have h := C1_load_atomicity [busEntry, missingTaxisEntry] hmiss
  refine ⟨hmiss, h.1, h.2 ?_⟩
  intro d hd _
  rcases List.mem_cons.mp hd with rfl | hd2
  · exact fun _ => ⟨busModel, rfl⟩
  · rcases List.mem_cons.mp hd2 with rfl | hd3
    · intro hpb
      exact absurd hpb (by decide)
    · exact absurd hd3 (by simp)

/-- C3: when every enumerated entry is a valid artifact for some catalog
category (valid name, `saved_model.pb` present, engine load succeeding),
`load_from_models_dir` returns a registry whose key set is exactly the set of
categories the entries name. -/
theorem C3_load_completeness (entries : List DirEntry)
    (h : ∀ d ∈ entries, ∃ c m,
      d.file_name = some (CaptchaChallenge.toName c) ∧
      d.saved_model_pb_exists = true ∧
      d.session_from_saved_model = .ok m) :
    ∃ r, CaptchaRegistry.load_from_models_dir entries = .ok r ∧
      ∀ c, (r.items c).isSome = true ↔
        ∃ d ∈ entries, d.file_name = some (CaptchaChallenge.toName c) := by
  have hfilter : entries.filter
      (fun dir => CaptchaChallenge.is_valid_challenge_os_str dir.file_name) =
      entries := by
    apply List.filter_eq_self.mpr
    intro d hd
    obtain ⟨c, m, hname, _, _⟩ := h d hd
    exact (CaptchaChallenge.is_valid_challenge_os_str_iff d.file_name).mpr
      ⟨c, hname⟩
  obtain ⟨mp, hfold, hchar⟩ := loadFold_ok_of_valid entries h SavedModelMap.empty
  refine ⟨⟨mp⟩, ?_, ?_⟩
  · unfold CaptchaRegistry.load_from_models_dir
    rw [hfilter, hfold]
  · intro c
    have hc := hchar c
    simpa [SavedModelMap.empty] using hc

/-- C3 witness: a root holding exactly valid `bus/` and `taxis/` artifacts
loads into a registry whose keys are exactly `Bus` and `Taxis`. -/
theorem C3_load_completeness_witness :
    (∀ d ∈ [busEntry, taxisEntry], ∃ c m,
      d.file_name = some (CaptchaChallenge.toName c) ∧
      d.saved_model_pb_exists = true ∧
      d.session_from_saved_model = .ok m) ∧
    (∃ r, CaptchaRegistry.load_from_models_dir [busEntry, taxisEntry] = .ok r ∧
      ∀ c, (r.items c).isSome = true ↔
        ∃ d ∈ [busEntry, taxisEntry],
          d.file_name = some (CaptchaChallenge.toName c)) := by
  have hyp : ∀ d ∈ [busEntry, taxisEntry], ∃ c m,
      d.file_name = some (CaptchaChallenge.toName c) ∧
      d.saved_model_pb_exists = true ∧
      d.session_from_saved_model = .ok m := by
    intro d hd
    rcases List.mem_cons.mp hd with rfl | hd2
    · exact ⟨.Bus, busModel, rfl, rfl, rfl⟩
    · rcases List.mem_cons.mp hd2 with rfl | hd3
      · exact ⟨.Taxis, busModel, rfl, rfl, rfl⟩
      · exact absurd hd3 (by simp)
  exact ⟨hyp, C3_load_completeness [busEntry, taxisEntry] hyp⟩

end Nocap
